import Mathlib

/-!
# Verification of the LINC agent coordination core

A shallow embedding of the coordination layer of the `linc-agents`
repository: the keyword-scoring workflow router
(`MasterLINC._analyze_and_route`), the workflow execution engine and its
callback handler (`MasterLINC._execute_workflow`,
`MasterLINC._handle_agent_message`), the point-to-point message delivery
path (`BaseLINCAgent`'s `/messages/send` endpoint and
`_send_agent_message`), the broker (`MessageBroker.publish`), and the
agent health monitor (`OrchestrationService.check_agent_health`).

Each definition is translated from the corresponding Python source
function.  Effects are made explicit: the database tables and the
in-memory workflow map are passed as values, generated UUIDs and network
outcomes are parameters, and raised exceptions become `Except` values.
The theorems at the end settle the frozen claims about the
natural-language specification.
-/

set_option autoImplicit false

namespace Linc

/-! ## String primitives

Python's `needle in text` is substring containment and `str.lower()` on
the ASCII fragment is `Char.toLower` mapped over the string.  All keyword
profiles and all concrete inputs used below are ASCII. -/

/-- `leadMatch n h` holds when `n` is an initial segment of `h`. -/
def leadMatch : List Char → List Char → Bool
  | [], _ => true
  | _ :: _, [] => false
  | a :: as, b :: bs => a == b && leadMatch as bs

/-- `seqContains n h` holds when `n` occurs contiguously inside `h`. -/
def seqContains (needle : List Char) : List Char → Bool
  | [] => leadMatch needle []
  | b :: bs => leadMatch needle (b :: bs) || seqContains needle bs

/-- Python `needle in haystack` for strings: substring containment. -/
def substrB (needle haystack : String) : Bool :=
  seqContains needle.toList haystack.toList

/-- Python `str.lower()` restricted to the ASCII fragment. -/
def pyLower (s : String) : String :=
  String.mk (s.toList.map Char.toLower)

/-! ## Routing (`MasterLINC._analyze_and_route`, src/agents/masterlinc/main.py) -/

/-- The `intent_keywords` table from `MasterLINC._analyze_and_route`,
in source (dict insertion) order. -/
def intent_keywords : List (String × List String) :=
  [ ("doctorlinc",
      ["doctor", "physician", "medical", "diagnosis", "prescription",
       "symptom", "treatment", "clinic", "consultation", "health"]),
    ("nurslinc",
      ["nurse", "nursing", "care", "medication", "vital signs",
       "shift", "report", "patient care", "checklist"]),
    ("patientlinc",
      ["patient", "appointment", "schedule", "education", "health tracking",
       "lab results", "medication reminder", "symptoms"]),
    ("bizlinc",
      ["business", "entrepreneur", "startup", "proposal", "rfp",
       "market analysis", "etimad", "saudi business"]),
    ("paylinc",
      ["payment", "billing", "invoice", "financial", "subscription",
       "stripe", "paypal", "transaction"]),
    ("chatlinc",
      ["chat", "talk", "conversation", "help", "support",
       "question", "information"]) ]

/-- `sum(1 for keyword in keywords if keyword in user_intent_lower)`. -/
def matchCount (keywords : List String) (loweredText : String) : Nat :=
  keywords.countP (fun kw => substrB kw loweredText)

/-- The `agent_scores` dict built by `_analyze_and_route`: each agent whose
profile has a positive keyword-match count is mapped to
`count / len(keywords)`, in table order.  Agents with zero matches are
absent. -/
def agent_scores_of (table : List (String × List String))
    (loweredText : String) : List (String × ℚ) :=
  table.filterMap (fun p =>
    let score := matchCount p.2 loweredText
    if score > 0 then some (p.1, (score : ℚ) / (p.2.length : ℚ)) else none)

/-- The `if not agent_scores: agent_scores["chatlinc"] = 0.8` fallback:
when no agent scored above zero the dict becomes `{"chatlinc": 0.8}`. -/
def scores_with_fallback (table : List (String × List String))
    (loweredText : String) : List (String × ℚ) :=
  let scores := agent_scores_of table loweredText
  if scores.isEmpty then [("chatlinc", (8 : ℚ) / 10)] else scores

/-- Python `max(agent_scores.keys(), key=lambda x: agent_scores[x])` over
the scores dict in iteration order: returns the first entry attaining the
maximal score (a later entry replaces the current best only when strictly
greater). -/
def pyMaxFirst : List (String × ℚ) → Option (String × ℚ)
  | [] => none
  | p :: l =>
    match pyMaxFirst l with
    | none => some p
    | some q => if q.2 > p.2 then some q else some p

/-- The static `support_map` of `MasterLINC._get_supporting_agents`. -/
def support_map : List (String × List String) :=
  [ ("doctorlinc", ["nurslinc", "patientlinc"]),
    ("nurslinc", ["doctorlinc"]),
    ("patientlinc", ["doctorlinc", "nurslinc"]),
    ("bizlinc", ["paylinc", "insightlinc"]),
    ("paylinc", ["bizlinc"]),
    ("chatlinc", []) ]

/-- `MasterLINC._get_supporting_agents`: `support_map.get(primary, [])`
(the `context` parameter is unused in the source). -/
def get_supporting_agents (primaryAgent : String) : List String :=
  match support_map.find? (fun p => p.1 == primaryAgent) with
  | some p => p.2
  | none => []

/-- One entry of the `steps` list built by `_analyze_and_route`. -/
structure WorkflowStep where
  step : Nat
  agent : String
  action : String
  status : String
  deriving DecidableEq, Repr

/-- The supporting-agent steps appended by the
`for i, agent in enumerate(supporting_agents)` loop: entry `i` is
`{"step": i + 2, "agent": agent, "action": "support_processing",
"status": "waiting"}`.  The `start` parameter is the running value of
`i`. -/
def supportSteps (start : Nat) : List String → List WorkflowStep
  | [] => []
  | a :: rest =>
    { step := start + 2, agent := a,
      action := "support_processing", status := "waiting" }
      :: supportSteps (start + 1) rest

/-- `[s, s+1, ..., s+n-1]`: used to state that step numbers are
consecutive. -/
def stepNums (s : Nat) : Nat → List Nat
  | 0 => []
  | n + 1 => s :: stepNums (s + 1) n

/-- The routing result dict returned by `_analyze_and_route`. -/
structure RoutingResult where
  workflow_id : String
  primary_agent : String
  supporting_agents : List String
  estimated_duration : Nat
  steps : List WorkflowStep
  deriving DecidableEq, Repr

/-- `MasterLINC._analyze_and_route`, with the generated `workflow_id`
passed in as a parameter and the keyword table made explicit (the source
fixes `table := intent_keywords`).  Scores each profiled agent, falls back
to `chatlinc` with score `0.8` when no agent scores above zero, takes the
Python-`max` argmax of the dict keys, and builds the step plan. -/
def analyze_and_route_with (table : List (String × List String))
    (userIntent : String) (workflowId : String) : RoutingResult :=
  let scores := scores_with_fallback table (pyLower userIntent)
  let primary :=
    match pyMaxFirst scores with
    | some p => p.1
    | none => "chatlinc"
  let supporting := get_supporting_agents primary
  { workflow_id := workflowId,
    primary_agent := primary,
    supporting_agents := supporting,
    estimated_duration := 5,
    steps :=
      { step := 1, agent := primary, action := "process_request",
        status := "pending" } :: supportSteps 0 supporting }

/-- `MasterLINC._analyze_and_route` with the source's keyword table. -/
def analyze_and_route (userIntent : String) (workflowId : String) :
    RoutingResult :=
  analyze_and_route_with intent_keywords userIntent workflowId

/-! ## Database records (src/shared/database/models.py) -/

/-- The fields of the `Agent` registry row read by the delivery path and
the claims: persisted `status`, network `port`, and `last_heartbeat`
(seconds). -/
structure AgentRecord where
  name : String
  status : String
  port : Nat
  last_heartbeat : Nat
  deriving DecidableEq, Repr

/-- An `InterAgentMessage` row.  `status` defaults to `"pending"`
(column default); `correlation_id` is nullable; `processed_at` is
nullable. -/
structure InterAgentMsg where
  from_agent : String
  to_agent : String
  message_type : String
  payload : String
  priority : String
  status : String
  correlation_id : Option String
  processed_at : Option Nat
  deriving DecidableEq, Repr

/-! ## The send path (`BaseLINCAgent`, src/shared/models/base_agent.py) -/

/-- The request body of `POST /messages/send` (the `AgentMessage`
pydantic model): `priority` defaults to `"normal"` and `correlation_id`
to `None`. -/
structure AgentMessage where
  to_agent : String
  message_type : String
  payload : String
  priority : String := "normal"
  correlation_id : Option String := none
  deriving DecidableEq, Repr

/-- Python `v or fresh` on an `Optional[str]`: both `None` and the empty
string are falsy. -/
def pyOrStr (v : Option String) (fresh : String) : String :=
  match v with
  | none => fresh
  | some s => if s = "" then fresh else s

/-- Python `if correlation_id:` — `None` and `""` are falsy. -/
def truthyStr : Option String → Bool
  | none => false
  | some s => !(s == "")

/-- What the `send_message` endpoint produces: the persisted record, the
`correlation_id` echoed in the HTTP response, and the `correlation_id`
argument handed to the background delivery task. -/
structure SendEndpointResult where
  record : InterAgentMsg
  response_correlation_id : String
  task_correlation_id : Option String
  deriving DecidableEq, Repr

/-- The `POST /messages/send` endpoint body: persists an
`InterAgentMessage` whose `correlation_id` is
`message.correlation_id or str(uuid.uuid4())` (the fresh UUID is the
`freshUuid` parameter), schedules `_send_agent_message` with the
*caller-supplied* `message.correlation_id`, and responds with
`{"status": "sent", "correlation_id": inter_msg.correlation_id}`. -/
def send_message (selfName : String) (m : AgentMessage)
    (freshUuid : String) : SendEndpointResult :=
  let cid := pyOrStr m.correlation_id freshUuid
  { record :=
      { from_agent := selfName, to_agent := m.to_agent,
        message_type := m.message_type, payload := m.payload,
        priority := m.priority, status := "pending",
        correlation_id := some cid, processed_at := none },
    response_correlation_id := cid,
    task_correlation_id := m.correlation_id }

/-- Outcome of the `httpx` POST issued by `_send_agent_message`: either a
raised exception (timeout, connection error) or a response with a status
code and body. -/
inductive HttpOutcome where
  | exn (msg : String)
  | response (code : Nat) (body : String)
  deriving DecidableEq, Repr

/-- The update performed by the failure handler of `_send_agent_message`:
`db.query(InterAgentMessage).filter(correlation_id == c).first()` followed
by `msg.status = "failed"` — only the first matching row is updated. -/
def markFirstFailed (c : String) : List InterAgentMsg → List InterAgentMsg
  | [] => []
  | m :: ms =>
    if m.correlation_id == some c then { m with status := "failed" } :: ms
    else m :: markFirstFailed c ms

/-- The `except` block of `_send_agent_message`: the update runs only
under `if correlation_id:`, so a `None` (or empty) task `correlation_id`
leaves the table untouched. -/
def failHandler (cid : Option String) (msgs : List InterAgentMsg) :
    List InterAgentMsg :=
  match cid with
  | none => msgs
  | some c => if c = "" then msgs else markFirstFailed c msgs

/-- The delivery precondition of `_send_agent_message`: look the target up
in the agents table and require its persisted `status` to be exactly
`"online"`; otherwise raise. -/
def deliveryPrecondition (agents : List AgentRecord) (toAgent : String) :
    Except String AgentRecord :=
  match agents.find? (fun a => a.name == toAgent) with
  | none => Except.error ("Agent " ++ toAgent ++ " not found")
  | some a =>
    if a.status != "online" then
      Except.error ("Agent " ++ toAgent ++ " is not online")
    else Except.ok a

/-- `BaseLINCAgent._send_agent_message`: checks the delivery precondition,
issues the HTTP POST, and on `status_code == 200` returns the response
body *without touching the message record*; on any raised error (unknown
agent, non-online agent, transport exception, non-200 response) the
`except` block runs `failHandler` over the message table.  The result is
the returned body (if any) paired with the updated message table. -/
def send_agent_message (agents : List AgentRecord)
    (msgs : List InterAgentMsg) (toAgent : String) (cid : Option String)
    (net : HttpOutcome) : Option String × List InterAgentMsg :=
  match deliveryPrecondition agents toAgent with
  | Except.error _ => (none, failHandler cid msgs)
  | Except.ok _ =>
    match net with
    | HttpOutcome.exn _ => (none, failHandler cid msgs)
    | HttpOutcome.response code body =>
      if code == 200 then (some body, msgs)
      else (none, failHandler cid msgs)

/-! ## Broker and workflow engine (src/shared/messaging/__init__.py,
src/agents/masterlinc/main.py) -/

/-- `MessageBroker.publish`: the entire body is wrapped in
`try/except Exception: logger.error(...)`, so every transport failure is
caught and logged inside the broker and the caller always observes a
normal return. -/
def publish (transport : Except String Unit) : Except String Unit :=
  match transport with
  | Except.ok _ => Except.ok ()
  | Except.error _ => Except.ok ()

/-- `AgentMessenger.send_to_agent`: builds the message dict and delegates
to `MessageBroker.publish` on the target's channel. -/
def send_to_agent (transport : Except String Unit) : Except String Unit :=
  publish transport

/-- One entry of MasterLINC's in-memory `active_workflows` dict (the
fields the claims are about). -/
structure WorkflowInstance where
  status : String
  error : Option String := none
  completed_at : Option Nat := none
  deriving DecidableEq, Repr

/-- Dict lookup on the workflow map (first occurrence of the key). -/
def lookupWf (k : String) (l : List (String × WorkflowInstance)) :
    Option WorkflowInstance :=
  match l.find? (fun p => p.1 == k) with
  | some p => some p.2
  | none => none

/-- Dict update at the first occurrence of a key. -/
def updateAt (k : String) (f : WorkflowInstance → WorkflowInstance) :
    List (String × WorkflowInstance) → List (String × WorkflowInstance)
  | [] => []
  | p :: ps => if p.1 == k then (p.1, f p.2) :: ps else p :: updateAt k f ps

/-- `MasterLINC._execute_workflow`: stores the instance under
`workflow_id` with status `"executing"`, then asks the messenger to
deliver the initial `workflow_request`; an exception raised inside the
`try` block would transition the instance to `"error"` with the error
recorded — but `send_to_agent` delegates to `publish`, which catches
every transport failure, so the `except` branch is unreachable for
delivery failures. -/
def execute_workflow (active : List (String × WorkflowInstance))
    (workflowId : String) (transport : Except String Unit) :
    List (String × WorkflowInstance) :=
  let active1 := (workflowId, ({ status := "executing" } : WorkflowInstance)) :: active
  match send_to_agent transport with
  | Except.ok _ => active1
  | Except.error e =>
    if (lookupWf workflowId active1).isSome then
      updateAt workflowId
        (fun w => { w with status := "error", error := some e }) active1
    else active1

/-- `MasterLINC._handle_agent_message`: a `workflow_complete` callback for
a known `workflow_id` sets its status to `"completed"` and stamps
`completed_at`; a `workflow_error` callback for a known `workflow_id`
sets its status to `"error"` and records `payload.get("error")`.  There
is no guard on the current status.  Unknown ids, absent ids and other
message types leave the map unchanged.  The handler always responds
`{"status": "acknowledged"}`. -/
def handle_agent_message (active : List (String × WorkflowInstance))
    (messageType : String) (payloadWorkflowId : Option String)
    (payloadError : Option String) (now : Nat) :
    List (String × WorkflowInstance) × String :=
  if messageType = "workflow_complete" then
    match payloadWorkflowId with
    | some wid =>
      if (lookupWf wid active).isSome then
        (updateAt wid
          (fun w => { w with status := "completed", completed_at := some now })
          active, "acknowledged")
      else (active, "acknowledged")
    | none => (active, "acknowledged")
  else if messageType = "workflow_error" then
    match payloadWorkflowId with
    | some wid =>
      if (lookupWf wid active).isSome then
        (updateAt wid
          (fun w => { w with status := "error", error := payloadError })
          active, "acknowledged")
      else (active, "acknowledged")
    | none => (active, "acknowledged")
  else (active, "acknowledged")

/-! ## Health monitor (`OrchestrationService.check_agent_health`,
src/agents/masterlinc/src/services/orchestration_service.py) -/

/-- `Settings.agent_registry_ttl` default
(src/agents/masterlinc/src/config/settings.py). -/
def agent_registry_ttl : Nat := 60

/-- Outcome of the `GET {agent_url}/health` probe: a raised exception
(timeout, connection refused, Redis fault) or a response status code. -/
inductive ProbeOutcome where
  | exn (msg : String)
  | response (code : Nat)
  deriving DecidableEq, Repr

/-- What one `check_agent_health` call does: the boolean verdict, the
`setex` write it performs on the cache (value and TTL), and whether a
fresh probe was issued. -/
structure HealthCheckResult where
  verdict : Bool
  cacheWrite : Option (String × Nat)
  probed : Bool
  deriving DecidableEq, Repr

/-- `OrchestrationService.check_agent_health` for one agent: `cached` is
the unexpired Redis value under `agent_health:{agent_type}` (`none` when
absent or expired), `probe` the outcome of the HTTP probe, `ttl` the
configured `agent_registry_ttl`.  Only a cached value equal to
`"healthy"` short-circuits; any other cached value falls through to a
fresh probe.  A probe that completes yields the verdict
`status_code == 200`, cached via `setex(key, ttl, verdict)`; a raised
exception is caught and yields `false` with nothing cached. -/
def check_agent_health (cached : Option String) (probe : ProbeOutcome)
    (ttl : Nat) : HealthCheckResult :=
  if cached == some "healthy" then
    { verdict := true, cacheWrite := none, probed := false }
  else
    match probe with
    | ProbeOutcome.exn _ =>
      { verdict := false, cacheWrite := none, probed := true }
    | ProbeOutcome.response code =>
      { verdict := code == 200,
        cacheWrite := some ((if code == 200 then "healthy" else "unhealthy"), ttl),
        probed := true }

/-! ## Concrete inputs used in the claim theorems -/

/-- An intent on which `doctorlinc` (5 of 10 keywords) and `patientlinc`
(4 of 8 keywords) tie at score 1/2. -/
def tieIntent : String :=
  "doctor physician medical diagnosis prescription patient appointment schedule education"

/-- The record persisted by `/messages/send` for a caller who supplied no
`correlation_id` (the endpoint generated `"uuid-1"`). -/
def c1Record : InterAgentMsg :=
  { from_agent := "masterlinc", to_agent := "ghost", message_type := "ping",
    payload := "p", priority := "normal", status := "pending",
    correlation_id := some "uuid-1", processed_at := none }

/-- An online registry row for `doctorlinc`. -/
def c5Agent : AgentRecord :=
  { name := "doctorlinc", status := "online", port := 8010,
    last_heartbeat := 50 }

/-- A pending message record awaiting delivery to `doctorlinc`. -/
def c5Record : InterAgentMsg :=
  { from_agent := "masterlinc", to_agent := "doctorlinc",
    message_type := "workflow_request", payload := "p",
    priority := "normal", status := "pending",
    correlation_id := some "c-1", processed_at := none }

/-- A registry row whose persisted status is still `online` but whose
heartbeat is 1000 seconds old. -/
def staleAgent : AgentRecord :=
  { name := "doctorlinc", status := "online", port := 8010,
    last_heartbeat := 0 }

/-- A workflow instance already in the terminal `completed` state. -/
def c2Instance : WorkflowInstance :=
  { status := "completed", error := none, completed_at := some 5 }

/-! ## Helper lemmas -/

theorem pyMaxFirst_eq_none {l : List (String × ℚ)} :
    pyMaxFirst l = none ↔ l = [] := by
  cases l with
  | nil => simp [pyMaxFirst]
  | cons p l =>
    simp only [pyMaxFirst]
    constructor
    · intro h
      cases hl : pyMaxFirst l <;> rw [hl] at h <;> simp at h
      split at h <;> simp at h
    · intro h
      exact absurd h (List.cons_ne_nil p l)

/-- `pyMaxFirst` returns the first maximal entry: the list decomposes as
entries strictly below it, the entry itself, then entries not above it. -/
theorem pyMaxFirst_spec :
    ∀ (l : List (String × ℚ)) (p : String × ℚ), pyMaxFirst l = some p →
      ∃ l₁ l₂, l = l₁ ++ p :: l₂ ∧ (∀ q ∈ l₁, q.2 < p.2) ∧
        (∀ q ∈ l₂, q.2 ≤ p.2) := by
  intro l
  induction l with
  | nil => intro p h; simp [pyMaxFirst] at h
  | cons a l ih =>
    intro p h
    rw [pyMaxFirst] at h
    cases hl : pyMaxFirst l with
    | none =>
      rw [hl] at h
      simp only [Option.some.injEq] at h
      subst h
      have hnil : l = [] := pyMaxFirst_eq_none.mp hl
      subst hnil
      exact ⟨[], [], rfl, by simp, by simp⟩
    | some q =>
      rw [hl] at h
      dsimp only at h
      obtain ⟨l₁, l₂, heq, h₁, h₂⟩ := ih q hl
      by_cases hgt : q.2 > a.2
      · rw [if_pos hgt] at h
        simp only [Option.some.injEq] at h
        subst h
        refine ⟨a :: l₁, l₂, by simp [heq], ?_, h₂⟩
        intro x hx
        rcases List.mem_cons.mp hx with hx | hx
        · subst hx; exact hgt
        · exact h₁ x hx
      · rw [if_neg hgt] at h
        simp only [Option.some.injEq] at h
        subst h
        refine ⟨[], l, rfl, by simp, ?_⟩
        intro x hx
        have hqa : q.2 ≤ a.2 := le_of_not_lt hgt
        rw [heq] at hx
        rcases List.mem_append.mp hx with hx | hx
        · exact le_of_lt (lt_of_lt_of_le (h₁ x hx) hqa)
        · rcases List.mem_cons.mp hx with hx | hx
          · subst hx; exact hqa
          · exact le_trans (h₂ x hx) hqa

/-- Membership in the scores dict: exactly the agents whose profile has a
positive match count, scored `count / size`. -/
theorem mem_agent_scores_iff (table : List (String × List String))
    (t : String) (a : String) (q : ℚ) :
    (a, q) ∈ agent_scores_of table t ↔
      ∃ kws, (a, kws) ∈ table ∧ 0 < matchCount kws t ∧
        q = (matchCount kws t : ℚ) / (kws.length : ℚ) := by
  unfold agent_scores_of
  rw [List.mem_filterMap]
  constructor
  · rintro ⟨⟨b, kws⟩, hmem, hf⟩
    dsimp only at hf
    by_cases hpos : 0 < matchCount kws t
    · rw [if_pos hpos] at hf
      simp only [Prod.mk.injEq, Option.some.injEq] at hf
      obtain ⟨hb, hq⟩ := hf
      subst hb
      exact ⟨kws, hmem, hpos, hq.symm⟩
    · rw [if_neg hpos] at hf
      exact absurd hf (Option.noConfusion)
  · rintro ⟨kws, hmem, hpos, rfl⟩
    exact ⟨(a, kws), hmem, by simp [hpos]⟩

theorem agent_scores_of_perm (t₁ t₂ : List (String × List String))
    (s : String) (h : t₁.Perm t₂) :
    (agent_scores_of t₁ s).Perm (agent_scores_of t₂ s) :=
  h.filterMap _

theorem matchCount_perm (k₁ k₂ : List String) (s : String)
    (h : k₁.Perm k₂) : matchCount k₁ s = matchCount k₂ s :=
  h.countP_eq _

theorem supportSteps_length (l : List String) :
    ∀ s, (supportSteps s l).length = l.length := by
  induction l with
  | nil => intro s; rfl
  | cons a rest ih => intro s; simp [supportSteps, ih]

theorem supportSteps_get? (l : List String) :
    ∀ (s i : Nat),
      (supportSteps s l).get? i = (l.get? i).map
        (fun a => { step := s + i + 2, agent := a,
                    action := "support_processing", status := "waiting" }) := by
  induction l with
  | nil => intro s i; simp [supportSteps]
  | cons a rest ih =>
    intro s i
    cases i with
    | zero => rfl
    | succ i =>
      simp only [supportSteps, List.get?]
      rw [ih (s + 1) i]
      have : s + 1 + i + 2 = s + (i + 1) + 2 := by omega
      rw [this]

theorem supportSteps_map_step (l : List String) :
    ∀ s, (supportSteps s l).map WorkflowStep.step
      = stepNums (s + 2) l.length := by
  induction l with
  | nil => intro s; rfl
  | cons a rest ih =>
    intro s
    simp only [supportSteps, List.map, List.length_cons, stepNums]
    rw [ih (s + 1)]

theorem lookupWf_updateAt (k : String)
    (f : WorkflowInstance → WorkflowInstance) :
    ∀ l, lookupWf k (updateAt k f l) = (lookupWf k l).map f := by
  intro l
  induction l with
  | nil => rfl
  | cons p ps ih =>
    by_cases h : p.1 = k
    · simp [updateAt, lookupWf, List.find?, h]
    · have hb : (p.1 == k) = false := by simp [h]
      simp only [updateAt, hb, if_false, lookupWf, List.find?, hb] at *
      exact ih

/-- The steps of every routing result are the primary step followed by
the supporting steps. -/
theorem analyze_and_route_steps (table : List (String × List String))
    (text wid : String) :
    (analyze_and_route_with table text wid).steps
      = { step := 1, agent := (analyze_and_route_with table text wid).primary_agent,
          action := "process_request", status := "pending" }
        :: supportSteps 0 (analyze_and_route_with table text wid).supporting_agents := rfl

/-! ## Claim theorems -/

/-- **C4, counterexample.**  The claim says ties are broken by a fixed
agent-priority ordering declared in configuration, never by iteration
order.  On the tie intent, `doctorlinc` and `patientlinc` tie for the
maximum score `5/10 = 4/8 = 1/2`, and permuting the keyword table (the
only ordering in the code — there is no agent-priority configuration)
changes the winner: the router picks whichever of the two agents its
table iterates first. -/
theorem C4_counterexample :
    agent_scores_of intent_keywords (pyLower tieIntent)
        = [("doctorlinc", (5 : ℚ) / 10), ("patientlinc", (4 : ℚ) / 8)]
    ∧ (5 : ℚ) / 10 = (4 : ℚ) / 8
    ∧ List.Perm intent_keywords.reverse intent_keywords
    ∧ (analyze_and_route_with intent_keywords tieIntent "w").primary_agent
        = "doctorlinc"
    ∧ (analyze_and_route_with intent_keywords.reverse tieIntent "w").primary_agent
        = "patientlinc" := by
  have hd : matchCount ["doctor", "physician", "medical", "diagnosis",
      "prescription", "symptom", "treatment", "clinic", "consultation",
      "health"] (pyLower tieIntent) = 5 := by decide
  have hn : matchCount ["nurse", "nursing", "care", "medication",
      "vital signs", "shift", "report", "patient care", "checklist"]
      (pyLower tieIntent) = 0 := by decide
  have hp : matchCount ["patient", "appointment", "schedule", "education",
      "health tracking", "lab results", "medication reminder", "symptoms"]
      (pyLower tieIntent) = 4 := by decide
  have hb : matchCount ["business", "entrepreneur", "startup", "proposal",
      "rfp", "market analysis", "etimad", "saudi business"]
      (pyLower tieIntent) = 0 := by decide
  have hy : matchCount ["payment", "billing", "invoice", "financial",
      "subscription", "stripe", "paypal", "transaction"]
      (pyLower tieIntent) = 0 := by decide
  have hc : matchCount ["chat", "talk", "conversation", "help", "support",
      "question", "information"] (pyLower tieIntent) = 0 := by decide
  have hscores : agent_scores_of intent_keywords (pyLower tieIntent)
      = [("doctorlinc", (5 : ℚ) / 10), ("patientlinc", (4 : ℚ) / 8)] := by
    simp [agent_scores_of, intent_keywords, hd, hn, hp, hb, hy, hc]
  have hrev : intent_keywords.reverse
      = [ ("chatlinc",
            ["chat", "talk", "conversation", "help", "support",
             "question", "information"]),
          ("paylinc",
            ["payment", "billing", "invoice", "financial", "subscription",
             "stripe", "paypal", "transaction"]),
          ("bizlinc",
            ["business", "entrepreneur", "startup", "proposal", "rfp",
             "market analysis", "etimad", "saudi business"]),
          ("patientlinc",
            ["patient", "appointment", "schedule", "education",
             "health tracking", "lab results", "medication reminder",
             "symptoms"]),
          ("nurslinc",
            ["nurse", "nursing", "care", "medication", "vital signs",
             "shift", "report", "patient care", "checklist"]),
          ("doctorlinc",
            ["doctor", "physician", "medical", "diagnosis", "prescription",
             "symptom", "treatment", "clinic", "consultation", "health"]) ] := by
    decide
  have hscores_rev : agent_scores_of intent_keywords.reverse (pyLower tieIntent)
      = [("patientlinc", (4 : ℚ) / 8), ("doctorlinc", (5 : ℚ) / 10)] := by
    rw [hrev]
    simp [agent_scores_of, hd, hn, hp, hb, hy, hc]
  have hne1 : ¬ ((4 : ℚ) / 8 > (5 : ℚ) / 10) := by norm_num
  have hne2 : ¬ ((5 : ℚ) / 10 > (4 : ℚ) / 8) := by norm_num
  have hpm1 : pyMaxFirst
      [("doctorlinc", (5 : ℚ) / 10), ("patientlinc", (4 : ℚ) / 8)]
      = some ("doctorlinc", (5 : ℚ) / 10) := by
    simp [pyMaxFirst, hne1]
  have hpm2 : pyMaxFirst
      [("patientlinc", (4 : ℚ) / 8), ("doctorlinc", (5 : ℚ) / 10)]
      = some ("patientlinc", (4 : ℚ) / 8) := by
    simp [pyMaxFirst, hne2]
  have hswf1 : scores_with_fallback intent_keywords (pyLower tieIntent)
      = [("doctorlinc", (5 : ℚ) / 10), ("patientlinc", (4 : ℚ) / 8)] := by
    unfold scores_with_fallback
    rw [hscores]
    rfl
  have hswf2 : scores_with_fallback intent_keywords.reverse (pyLower tieIntent)
      = [("patientlinc", (4 : ℚ) / 8), ("doctorlinc", (5 : ℚ) / 10)] := by
    unfold scores_with_fallback
    rw [hscores_rev]
    rfl
  refine ⟨hscores, by norm_num, List.reverse_perm _, ?_, ?_⟩
  · show (analyze_and_route_with intent_keywords tieIntent "w").primary_agent
        = "doctorlinc"
    simp only [analyze_and_route_with, hswf1, hpm1]
  · show (analyze_and_route_with intent_keywords.reverse tieIntent "w").primary_agent
        = "patientlinc"
    simp only [analyze_and_route_with, hswf2, hpm2]

/-- **C4 (amended).**  The routing score of each profiled agent equals
(count of its profile keywords occurring as substrings of the case-folded
text) divided by the profile's size; the set of scores is independent of
the iteration order of the table and of the keyword order within a
profile; but ties for the maximum are broken by the keyword table's
declaration (iteration) order — the selection is Python `max`, which
returns the first entry attaining the maximum, and no separate
agent-priority configuration exists. -/
theorem C4_score_formula_order_and_tiebreak :
    (∀ (t : String) (a : String) (q : ℚ),
        (a, q) ∈ agent_scores_of intent_keywords t ↔
          ∃ kws, (a, kws) ∈ intent_keywords ∧ 0 < matchCount kws t ∧
            q = (matchCount kws t : ℚ) / (kws.length : ℚ))
    ∧ (∀ (t₁ t₂ : List (String × List String)) (s : String),
        t₁.Perm t₂ → (agent_scores_of t₁ s).Perm (agent_scores_of t₂ s))
    ∧ (∀ (k₁ k₂ : List String) (s : String),
        k₁.Perm k₂ → matchCount k₁ s = matchCount k₂ s)
    ∧ (∀ (l : List (String × ℚ)) (p : String × ℚ), pyMaxFirst l = some p →
        ∃ l₁ l₂, l = l₁ ++ p :: l₂ ∧ (∀ q ∈ l₁, q.2 < p.2) ∧
          ∀ q ∈ l₂, q.2 ≤ p.2) :=
  ⟨mem_agent_scores_iff intent_keywords, agent_scores_of_perm,
   matchCount_perm, pyMaxFirst_spec⟩

/-- Witness for C4 (amended) at concrete inputs. -/
theorem C4_score_formula_order_and_tiebreak_witness :
    ((("doctorlinc" : String), (1 : ℚ) / 10)
        ∈ agent_scores_of intent_keywords (pyLower "doctor"))
    ∧ (agent_scores_of [("a", ["x"]), ("b", ["y"])] "x").Perm
        (agent_scores_of [("b", ["y"]), ("a", ["x"])] "x")
    ∧ matchCount ["doctor", "health"] "doctor"
        = matchCount ["health", "doctor"] "doctor"
    ∧ (∃ l₁ l₂, [(("a" : String), (1 : ℚ)), ("b", 2)]
          = l₁ ++ (("b" : String), (2 : ℚ)) :: l₂
        ∧ (∀ q ∈ l₁, q.2 < ((("b" : String), (2 : ℚ))).2)
        ∧ ∀ q ∈ l₂, q.2 ≤ ((("b" : String), (2 : ℚ))).2) :=
  ⟨(C4_score_formula_order_and_tiebreak.1 (pyLower "doctor") "doctorlinc"
      ((1 : ℚ) / 10)).mpr
    ⟨["doctor", "physician", "medical", "diagnosis", "prescription",
      "symptom", "treatment", "clinic", "consultation", "health"],
      by decide, by decide, by
        rw [show matchCount ["doctor", "physician", "medical", "diagnosis",
            "prescription", "symptom", "treatment", "clinic", "consultation",
            "health"] (pyLower "doctor") = 1 from by decide]
        norm_num⟩,
   C4_score_formula_order_and_tiebreak.2.1 _ _ _ (by decide),
   C4_score_formula_order_and_tiebreak.2.2.1 _ _ _ (by decide),
   C4_score_formula_order_and_tiebreak.2.2.2 _ _ (by decide)⟩

/-- **C7.**  When no agent's keyword profile scores above zero, the
fallback injects `{"chatlinc": 0.8}` into the scores dict, so routing
selects the conversational default `chatlinc` as primary agent with the
fixed score 0.8 and returns a plan rather than raising (the routing
function is total). -/
theorem C7_fallback_routing (text wid : String)
    (h : agent_scores_of intent_keywords (pyLower text) = []) :
    scores_with_fallback intent_keywords (pyLower text)
        = [("chatlinc", (8 : ℚ) / 10)]
    ∧ (analyze_and_route text wid).primary_agent = "chatlinc"
    ∧ (analyze_and_route text wid).supporting_agents = [] := by
  have h1 : scores_with_fallback intent_keywords (pyLower text)
      = [("chatlinc", (8 : ℚ) / 10)] := by
    unfold scores_with_fallback
    rw [h]
    rfl
  refine ⟨h1, ?_, ?_⟩
  · show (analyze_and_route_with intent_keywords text wid).primary_agent
        = "chatlinc"
    unfold analyze_and_route_with
    rw [h1]
    rfl
  · show (analyze_and_route_with intent_keywords text wid).supporting_agents
        = []
    unfold analyze_and_route_with
    rw [h1]
    rfl

/-- Witness for C7 at the intent `"zzz"`, which matches no keyword. -/
theorem C7_fallback_routing_witness :
    scores_with_fallback intent_keywords (pyLower "zzz")
        = [("chatlinc", (8 : ℚ) / 10)]
    ∧ (analyze_and_route "zzz" "w").primary_agent = "chatlinc"
    ∧ (analyze_and_route "zzz" "w").supporting_agents = [] :=
  C7_fallback_routing "zzz" "w" (by decide)

/-- **C8.**  Every routing plan has exactly `1 + |supporting_agents|`
steps: step 1 is the primary agent with action `process_request` and
status `pending`; step `i + 2` is the `i`-th supporting agent (in the
static support table's order) with action `support_processing` and
status `waiting`; and the step numbers are the consecutive sequence
`1, 2, ...`. -/
theorem C8_plan_structure (text wid : String) :
    (analyze_and_route text wid).steps.length
        = 1 + (analyze_and_route text wid).supporting_agents.length
    ∧ (analyze_and_route text wid).steps.head?
        = some { step := 1, agent := (analyze_and_route text wid).primary_agent,
                 action := "process_request", status := "pending" }
    ∧ (∀ i, i < (analyze_and_route text wid).supporting_agents.length →
        ∃ a, (analyze_and_route text wid).supporting_agents.get? i = some a
        ∧ (analyze_and_route text wid).steps.get? (i + 1)
            = some { step := i + 2, agent := a,
                     action := "support_processing", status := "waiting" })
    ∧ (analyze_and_route text wid).steps.map WorkflowStep.step
        = stepNums 1 (analyze_and_route text wid).steps.length := by
  have hsteps : (analyze_and_route text wid).steps
      = { step := 1, agent := (analyze_and_route text wid).primary_agent,
          action := "process_request", status := "pending" }
        :: supportSteps 0 (analyze_and_route text wid).supporting_agents :=
    analyze_and_route_steps intent_keywords text wid
  refine ⟨?_, ?_, ?_, ?_⟩
  · rw [hsteps]
    simp [supportSteps_length, Nat.add_comm]
  · rw [hsteps]
    rfl
  · intro i h
    refine ⟨(analyze_and_route text wid).supporting_agents.get ⟨i, h⟩,
      List.get?_eq_get h, ?_⟩
    rw [hsteps]
    show (supportSteps 0 (analyze_and_route text wid).supporting_agents).get? i
        = _
    rw [supportSteps_get? _ 0 i, List.get?_eq_get h]
    simp
  · rw [hsteps]
    simp only [List.map, supportSteps_map_step, List.length_cons,
      supportSteps_length]
    rfl

/-- Witness for C8 at two reachable plans: the intent `"doctor"` (two
supporting agents, inner index bound discharged at `i = 0`) and the
fallback intent `"zzz"` (zero supporting agents, where the structural
conjuncts hold unconditionally). -/
theorem C8_plan_structure_witness :
    (analyze_and_route "doctor" "w").steps.length
        = 1 + (analyze_and_route "doctor" "w").supporting_agents.length
    ∧ (analyze_and_route "doctor" "w").steps.head?
        = some { step := 1, agent := (analyze_and_route "doctor" "w").primary_agent,
                 action := "process_request", status := "pending" }
    ∧ (∃ a, (analyze_and_route "doctor" "w").supporting_agents.get? 0 = some a
        ∧ (analyze_and_route "doctor" "w").steps.get? 1
            = some { step := 2, agent := a,
                     action := "support_processing", status := "waiting" })
    ∧ (analyze_and_route "zzz" "w").steps.length
        = 1 + (analyze_and_route "zzz" "w").supporting_agents.length
    ∧ (analyze_and_route "zzz" "w").steps.head?
        = some { step := 1, agent := (analyze_and_route "zzz" "w").primary_agent,
                 action := "process_request", status := "pending" }
    ∧ (analyze_and_route "zzz" "w").steps.map WorkflowStep.step
        = stepNums 1 (analyze_and_route "zzz" "w").steps.length :=
  ⟨(C8_plan_structure "doctor" "w").1,
   (C8_plan_structure "doctor" "w").2.1,
   (C8_plan_structure "doctor" "w").2.2.1 0 (by decide),
   (C8_plan_structure "zzz" "w").1,
   (C8_plan_structure "zzz" "w").2.1,
   (C8_plan_structure "zzz" "w").2.2.2⟩

/-- **C1, code bug.**  The spec says every failed direct send leaves the
persisted `InterAgentMessage` with `status == "failed"`, including sends
where the caller supplied no `correlation_id` and one was generated at
persistence time.  The endpoint does generate a `correlation_id` for the
record, but it schedules the delivery task with the *caller-supplied*
value; when that value is `None` the failure handler's
`if correlation_id:` guard skips the update and the record stays
`"pending"` forever.  The last conjunct shows the contrast: with a
caller-supplied id the same failure does mark the record failed. -/
theorem C1_failed_send_can_leave_pending :
    send_message "masterlinc"
        { to_agent := "ghost", message_type := "ping", payload := "p" }
        "uuid-1"
      = { record := c1Record, response_correlation_id := "uuid-1",
          task_correlation_id := none }
    ∧ c1Record.status = "pending"
    ∧ deliveryPrecondition [] "ghost"
        = Except.error "Agent ghost not found"
    ∧ send_agent_message [] [c1Record] "ghost" none
        (HttpOutcome.exn "unreachable")
      = (none, [c1Record])
    ∧ send_agent_message [] [{ c1Record with correlation_id := some "c-7" }]
        "ghost" (some "c-7") (HttpOutcome.exn "unreachable")
      = (none, [{ c1Record with
                  correlation_id := some "c-7", status := "failed" }]) :=
  ⟨rfl, rfl, rfl, rfl, rfl⟩

/-- **C2, counterexample.**  The claim says a workflow instance in a
terminal state (`completed` or `error`) never changes status on a later
callback.  In the code a `workflow_error` callback for a known
`workflow_id` overwrites the status unconditionally: a completed
instance becomes `error`. -/
theorem C2_counterexample :
    lookupWf "w1" [("w1", c2Instance)] = some c2Instance
    ∧ c2Instance.status = "completed"
    ∧ (handle_agent_message [("w1", c2Instance)] "workflow_error"
        (some "w1") (some "boom") 9).1
      = [("w1", { status := "error", error := some "boom",
                  completed_at := some 5 })] :=
  ⟨rfl, rfl, rfl⟩

/-- **C2 (amended).**  The callback handler guards only on whether the
`workflow_id` is *known*: a `workflow_complete` callback for any known id
sets its status to `completed` (stamping `completed_at`) and a
`workflow_error` callback sets it to `error` (recording the payload
error), even when the instance is already terminal; callbacks with an
unknown or absent `workflow_id`, and other message types, leave the map
unchanged. -/
theorem C2_callbacks_overwrite_any_known_status :
    (∀ (st : List (String × WorkflowInstance)) (wid : String)
        (w : WorkflowInstance) (e : Option String) (now : Nat),
        lookupWf wid st = some w →
        lookupWf wid
            (handle_agent_message st "workflow_complete" (some wid) e now).1
          = some { w with status := "completed", completed_at := some now }
        ∧ lookupWf wid
            (handle_agent_message st "workflow_error" (some wid) e now).1
          = some { w with status := "error", error := e })
    ∧ (∀ (st : List (String × WorkflowInstance)) (wid : String)
        (e : Option String) (now : Nat),
        lookupWf wid st = none →
        (handle_agent_message st "workflow_complete" (some wid) e now).1 = st
        ∧ (handle_agent_message st "workflow_error" (some wid) e now).1 = st)
    ∧ (∀ (st : List (String × WorkflowInstance)) (mt : String)
        (e : Option String) (now : Nat),
        (handle_agent_message st mt none e now).1 = st) := by
  refine ⟨?_, ?_, ?_⟩
  · intro st wid w e now h
    constructor
    · unfold handle_agent_message
      rw [if_pos rfl]
      simp [h, lookupWf_updateAt]
    · unfold handle_agent_message
      rw [if_neg (by decide), if_pos rfl]
      simp [h, lookupWf_updateAt]
  · intro st wid e now h
    constructor
    · unfold handle_agent_message
      rw [if_pos rfl]
      simp [h]
    · unfold handle_agent_message
      rw [if_neg (by decide), if_pos rfl]
      simp [h]
  · intro st mt e now
    unfold handle_agent_message
    by_cases h1 : mt = "workflow_complete"
    · rw [if_pos h1]
    · rw [if_neg h1]
      by_cases h2 : mt = "workflow_error"
      · rw [if_pos h2]
      · rw [if_neg h2]

/-- Witness for C2 (amended) on a concrete completed instance. -/
theorem C2_callbacks_overwrite_any_known_status_witness :
    lookupWf "w1"
        (handle_agent_message [("w1", c2Instance)] "workflow_complete"
          (some "w1") (some "x") 7).1
      = some { c2Instance with status := "completed", completed_at := some 7 }
    ∧ lookupWf "w1"
        (handle_agent_message [("w1", c2Instance)] "workflow_error"
          (some "w1") (some "x") 7).1
      = some { c2Instance with status := "error", error := some "x" } :=
  C2_callbacks_overwrite_any_known_status.1 [("w1", c2Instance)] "w1"
    c2Instance (some "x") 7 rfl

/-- **C3, counterexample.**  The claim says a registry row whose
`last_heartbeat` is older than `registry_ttl` is treated as unhealthy by
the delivery precondition and the Health Monitor even while its persisted
status says `online`.  At time 1000 the `staleAgent` heartbeat (at 0) is
940 seconds past the 60-second TTL, yet the delivery precondition accepts
it, the send proceeds, and the Health Monitor — which never reads
`last_heartbeat` — reports it healthy when its live probe returns 200. -/
theorem C3_counterexample :
    agent_registry_ttl < 1000 - staleAgent.last_heartbeat
    ∧ staleAgent.status = "online"
    ∧ deliveryPrecondition [staleAgent] "doctorlinc" = Except.ok staleAgent
    ∧ (send_agent_message [staleAgent] [] "doctorlinc" none
        (HttpOutcome.response 200 "ok")).1 = some "ok"
    ∧ (check_agent_health none (ProbeOutcome.response 200)
        agent_registry_ttl).verdict = true :=
  ⟨by decide, rfl, rfl, rfl, rfl⟩

/-- **C3 (amended).**  Staleness is not derived anywhere: the delivery
precondition accepts a found record exactly when its persisted `status`
equals `"online"`, whatever its `last_heartbeat`, and the Health
Monitor's verdict is a function of the cached value and the live probe
only (`cached == "healthy"`, else the probe's `status_code == 200`). -/
theorem C3_staleness_not_derived :
    (∀ (agents : List AgentRecord) (toAgent : String) (a : AgentRecord),
        agents.find? (fun r => r.name == toAgent) = some a →
        (deliveryPrecondition agents toAgent = Except.ok a ↔
          a.status = "online"))
    ∧ (∀ (cached : Option String) (probe : ProbeOutcome) (ttl : Nat),
        (check_agent_health cached probe ttl).verdict
          = (cached == some "healthy"
              || (match probe with
                  | ProbeOutcome.response code => code == 200
                  | ProbeOutcome.exn _ => false))) := by
  constructor
  · intro agents toAgent a hfind
    unfold deliveryPrecondition
    rw [hfind]
    constructor
    · intro hok
      by_contra hne
      simp [hne] at hok
    · intro hs
      simp [hs]
  · intro cached probe ttl
    unfold check_agent_health
    by_cases h : (cached == some "healthy") = true
    · simp [h]
    · cases probe <;> simp [h]

/-- Witness for C3 (amended) on the stale-but-online record and an
unhealthy cache entry. -/
theorem C3_staleness_not_derived_witness :
    (deliveryPrecondition [staleAgent] "doctorlinc" = Except.ok staleAgent ↔
      staleAgent.status = "online")
    ∧ (check_agent_health (some "unhealthy") (ProbeOutcome.response 500)
        60).verdict
      = ((some "unhealthy" == some "healthy")
          || (match ProbeOutcome.response 500 with
              | ProbeOutcome.response code => code == 200
              | ProbeOutcome.exn _ => false)) :=
  ⟨C3_staleness_not_derived.1 [staleAgent] "doctorlinc" staleAgent rfl,
   C3_staleness_not_derived.2 (some "unhealthy") (ProbeOutcome.response 500) 60⟩

/-- **C5, code bug.**  The spec says a successful send (HTTP 200 within
the timeout) sets `status := "delivered"` and `processed_at := now` on
the persisted record and returns the peer's body.  The code returns the
body but performs no update at all on success: the record stays
`"pending"` with `processed_at` unset (`"delivered"` is unreachable). -/
theorem C5_success_leaves_record_pending :
    send_agent_message [c5Agent] [c5Record] "doctorlinc" (some "c-1")
        (HttpOutcome.response 200 "resp-body")
      = (some "resp-body", [c5Record])
    ∧ c5Record.status = "pending"
    ∧ c5Record.processed_at = none :=
  ⟨rfl, rfl, rfl⟩

/-- **C6, counterexample.**  The claim says a failed delivery of the
initial `workflow_request` transitions the instance straight to `error`
with the delivery error recorded.  The broker's `publish` catches the
transport failure internally, so the engine's `except` branch never
runs: the instance is stored and remains `executing`, with no error
recorded. -/
theorem C6_counterexample :
    execute_workflow [] "wf-1" (Except.error "connection refused")
      = [("wf-1", { status := "executing", error := none,
                    completed_at := none })]
    ∧ lookupWf "wf-1"
        (execute_workflow [] "wf-1" (Except.error "connection refused"))
      = some { status := "executing", error := none, completed_at := none } :=
  ⟨rfl, rfl⟩

/-- **C6 (amended).**  `publish` swallows every transport failure, so
`_execute_workflow` stores the instance with status `executing` and
returns it unchanged whatever the delivery outcome; the `error`
transition is reachable only for exceptions raised outside the broker
call, and the engine never retries (it invokes the messenger exactly
once per dispatch). -/
theorem C6_delivery_failures_swallowed :
    (∀ (active : List (String × WorkflowInstance)) (wid : String)
        (transport : Except String Unit),
        execute_workflow active wid transport
          = (wid, { status := "executing", error := none,
                    completed_at := none }) :: active)
    ∧ ∀ (transport : Except String Unit),
        publish transport = Except.ok () := by
  constructor
  · intro active wid transport
    unfold execute_workflow send_to_agent publish
    cases transport <;> rfl
  · intro transport
    cases transport <;> rfl

/-- **C9, counterexample.**  The claim says an unexpired cached verdict —
healthy or failed — is returned without a new probe.  With a fresh
cached `"unhealthy"` verdict the code re-probes immediately: the probe
is issued (`probed = true`), its result (healthy) is returned instead of
the cached verdict, and the cache is overwritten. -/
theorem C9_counterexample :
    check_agent_health (some "unhealthy") (ProbeOutcome.response 200)
        agent_registry_ttl
      = { verdict := true, cacheWrite := some ("healthy", agent_registry_ttl),
          probed := true } :=
  rfl

/-- **C9 (amended).**  Only a cached `"healthy"` verdict short-circuits
the probe; a cached `"unhealthy"` verdict does not suppress re-probing.
A probe that completes is cached for the configured TTL whatever its
verdict (`status_code == 200`); a probe that raises yields the verdict
`false` without caching, and the exception never propagates. -/
theorem C9_cache_short_circuits_only_healthy :
    (∀ (probe : ProbeOutcome) (ttl : Nat),
        check_agent_health (some "healthy") probe ttl
          = { verdict := true, cacheWrite := none, probed := false })
    ∧ (∀ (cached : Option String) (code : Nat) (ttl : Nat),
        cached ≠ some "healthy" →
        check_agent_health cached (ProbeOutcome.response code) ttl
          = { verdict := code == 200,
              cacheWrite := some
                ((if code == 200 then "healthy" else "unhealthy"), ttl),
              probed := true })
    ∧ (∀ (cached : Option String) (e : String) (ttl : Nat),
        cached ≠ some "healthy" →
        check_agent_health cached (ProbeOutcome.exn e) ttl
          = { verdict := false, cacheWrite := none, probed := true }) := by
  refine ⟨?_, ?_, ?_⟩
  · intro probe ttl
    rfl
  · intro cached code ttl h
    simp [check_agent_health, h]
  · intro cached e ttl h
    simp [check_agent_health, h]

/-- Witness for C9 (amended): a healthy cache hit, an uncached failed
probe, and an uncached raising probe. -/
theorem C9_cache_short_circuits_only_healthy_witness :
    check_agent_health (some "healthy") (ProbeOutcome.exn "timeout") 60
      = { verdict := true, cacheWrite := none, probed := false }
    ∧ check_agent_health none (ProbeOutcome.response 503) 60
      = { verdict := (503 == 200),
          cacheWrite := some
            ((if (503 == 200) then "healthy" else "unhealthy"), 60),
          probed := true }
    ∧ check_agent_health (some "unhealthy") (ProbeOutcome.exn "timeout") 60
      = { verdict := false, cacheWrite := none, probed := true } :=
  ⟨C9_cache_short_circuits_only_healthy.1 (ProbeOutcome.exn "timeout") 60,
   C9_cache_short_circuits_only_healthy.2.1 none 503 60 (by decide),
   C9_cache_short_circuits_only_healthy.2.2 (some "unhealthy") "timeout" 60
     (by decide)⟩

/-- **C10, counterexample.**  The claim says the persisted record carries
the caller's `correlation_id` whenever one was supplied.  Python's
`message.correlation_id or str(uuid.uuid4())` treats a supplied *empty*
string as falsy: the record gets the generated UUID instead of the
caller's value. -/
theorem C10_counterexample :
    (send_message "s"
        { to_agent := "a", message_type := "t", payload := "p",
          correlation_id := some "" }
        "uuid-9").task_correlation_id = some ""
    ∧ (send_message "s"
        { to_agent := "a", message_type := "t", payload := "p",
          correlation_id := some "" }
        "uuid-9").record.correlation_id = some "uuid-9"
    ∧ (some "uuid-9" : Option String) ≠ some "" :=
  ⟨rfl, rfl, by decide⟩

/-- **C10 (amended).**  The persisted record always carries a non-null
`correlation_id`: the caller's value when a *non-empty* one was
supplied, otherwise the freshly generated UUID (a supplied empty string
is treated as absent, per Python truthiness); the endpoint's response
returns exactly the persisted id, while the asynchronous delivery task
receives the raw caller-supplied value; the record is persisted with
status `pending`. -/
theorem C10_persisted_correlation_id (selfName : String)
    (m : AgentMessage) (fresh : String) :
    (send_message selfName m fresh).record.correlation_id
        = some (pyOrStr m.correlation_id fresh)
    ∧ ((send_message selfName m fresh).record.correlation_id).isSome = true
    ∧ (∀ c, m.correlation_id = some c → c ≠ "" →
        (send_message selfName m fresh).record.correlation_id = some c)
    ∧ ((m.correlation_id = none ∨ m.correlation_id = some "") →
        (send_message selfName m fresh).record.correlation_id = some fresh)
    ∧ some (send_message selfName m fresh).response_correlation_id
        = (send_message selfName m fresh).record.correlation_id
    ∧ (send_message selfName m fresh).task_correlation_id = m.correlation_id
    ∧ (send_message selfName m fresh).record.status = "pending" := by
  refine ⟨rfl, rfl, ?_, ?_, rfl, rfl, rfl⟩
  · intro c hc hne
    simp [send_message, pyOrStr, hc, hne]
  · rintro (hc | hc) <;> simp [send_message, pyOrStr, hc]

/-- Witness for C10 (amended): a caller-supplied non-empty id is kept; an
absent id is replaced by the generated UUID. -/
theorem C10_persisted_correlation_id_witness :
    (send_message "s"
        { to_agent := "a", message_type := "t", payload := "p",
          correlation_id := some "cid-7" }
        "u-1").record.correlation_id = some "cid-7"
    ∧ (send_message "s"
        { to_agent := "a", message_type := "t", payload := "p" }
        "u-1").record.correlation_id = some "u-1" :=
  ⟨(C10_persisted_correlation_id "s"
      { to_agent := "a", message_type := "t", payload := "p",
        correlation_id := some "cid-7" } "u-1").2.2.1 "cid-7" rfl (by decide),
   (C10_persisted_correlation_id "s"
      { to_agent := "a", message_type := "t", payload := "p" }
      "u-1").2.2.2.1 (Or.inl rfl)⟩

end Linc
